import Mathlib

/-!
Verification of `playwright-azure-mfa-auth`.

Shallow embedding of the two source modules:

* `src/impersonation/impersonation-helper.ts` — the `ImpersonationHelper`
  class: an in-memory impersonation header map plus a Playwright route rule
  on the `**/api/data/**` pattern that merges those headers into outgoing
  requests.
* `src/login/authentication-setup.ts` — `generateMicrosoftTOTP` (a wrapper
  around the `otpauth` TOTP generator, embedded here down to base32,
  HMAC-SHA1 and RFC 4226 truncation) and `authenticate` (the Microsoft
  login flow with an optional, best-effort MFA branch).

The browser engine (Playwright) is external: element visibility, route
pattern matching and click outcomes are modelled as an environment; the
helper's interaction with the page is modelled by the state it installs.
JavaScript `Record<string, string>` objects are modelled as association
lists with unique keys; object spread `{...a, ...b}` keeps every key of
`a`, with values of `b` winning on collision.  Machine integers do not
occur in the source; SHA-1's 32-bit words are `Nat` reduced mod `2 ^ 32`.
-/

/-- Model of JavaScript `String.prototype.trim()`: drop whitespace from
both ends.  Structural (kernel-reducible), unlike `String.trim`. -/
def jsTrim (s : String) : String :=
  String.mk (((s.toList.dropWhile Char.isWhitespace).reverse.dropWhile
    Char.isWhitespace).reverse)

namespace Impersonation

/-- A JS `Record<string, string>`, as an association list (unique keys in
all values the program constructs). -/
abbrev HeaderMap := List (String × String)

/-- Object spread `{ ...orig, ...imp }`: every key of `orig` survives unless
`imp` also binds it, in which case `imp`'s value wins; keys only in `imp`
are added.  Extensionally faithful to JS spread at the level of key lookup. -/
def mergeHeaders (orig imp : HeaderMap) : HeaderMap :=
  orig.filter (fun p => (imp.lookup p.1).isNone) ++ imp

/-- State of one `ImpersonationHelper` instance together with the route
registration it owns on its page.  `currentImpersonationHeaders` is the
private field of the class; `routeActive` records whether the helper's
handler for the `'**/api/data/**'` pattern is currently registered on the
page (`page.route` installed it and no `page.unroute` has removed it). -/
structure Helper where
  currentImpersonationHeaders : HeaderMap
  routeActive : Bool
deriving Repr, DecidableEq

/-- Constructor `new ImpersonationHelper(page)`: the field initializer sets
`currentImpersonationHeaders = {}`; the constructor registers no route. -/
def Helper.new : Helper :=
  { currentImpersonationHeaders := [], routeActive := false }

/-- Static `ImpersonationHelper.create(page)` — delegates to the constructor. -/
def Helper.create : Helper := Helper.new

/-- Function `createImpersonationHelper(page)` — delegates to `ImpersonationHelper.create`. -/
def createImpersonationHelper : Helper := Helper.create

/-- Private `setupRequestInterception`: first `page.unroute('**/api/data/**')`
removes any existing handler; then, only if the header map is non-empty,
`page.route('**/api/data/**', handler)` registers the merging handler. -/
def setupRequestInterception (s : Helper) : Helper :=
  let s1 : Helper := { s with routeActive := false }
  if s1.currentImpersonationHeaders.length > 0 then
    { s1 with routeActive := true }
  else
    s1

/-- Method `impersonateUserByAzureADObjectId(azureADObjectId)`.  Returns the
post-call state and, when the guard throws, the error message; the throw
happens before any assignment, so the state is returned unchanged then. -/
def impersonateUserByAzureADObjectId (s : Helper) (azureADObjectId : String) :
    Helper × Option String :=
  if azureADObjectId = "" ∨ jsTrim azureADObjectId = "" then
    (s, some "Azure AD Object ID is required and cannot be empty")
  else
    let s1 : Helper :=
      { s with currentImpersonationHeaders := [("CallerObjectId", azureADObjectId)] }
    (setupRequestInterception s1, none)

/-- Method `impersonateUserByUserId(userId)` — the legacy `MSCRMCallerID` variant. -/
def impersonateUserByUserId (s : Helper) (userId : String) :
    Helper × Option String :=
  if userId = "" ∨ jsTrim userId = "" then
    (s, some "systemUserId is required and cannot be empty")
  else
    let s1 : Helper :=
      { s with currentImpersonationHeaders := [("MSCRMCallerID", userId)] }
    (setupRequestInterception s1, none)

/-- Method `stopImpersonation()` — clears the header map and re-runs interception
setup (which tears the route down and does not reinstall it). -/
def stopImpersonation (s : Helper) : Helper × Option String :=
  let s1 : Helper := { s with currentImpersonationHeaders := [] }
  (setupRequestInterception s1, none)

/-- Query `getCurrentImpersonationHeaders()` — returns `{ ...this.currentImpersonationHeaders }`
(value-level view; the defensive-copy aliasing behaviour is modelled
separately with an explicit heap below). -/
def getCurrentImpersonationHeaders (s : Helper) : HeaderMap :=
  s.currentImpersonationHeaders

/-- Query `isImpersonationActive()` — `Object.keys(...).length > 0`. -/
def isImpersonationActive (s : Helper) : Bool :=
  s.currentImpersonationHeaders.length > 0

/-- The effect of the installed route handler on one outgoing request whose
URL matches the `'**/api/data/**'` pattern: when the helper's route is
registered, `route.continue` is called with the request's headers spread
under the impersonation headers; when no route is registered the request
leaves untouched.  (Pattern matching itself is Playwright's, external.) -/
def interceptApiRequest (s : Helper) (orig : HeaderMap) : HeaderMap :=
  if s.routeActive then mergeHeaders orig s.currentImpersonationHeaders else orig

/-- One call to one of the three public mutators. -/
inductive MutatorCall where
  | byAzureADObjectId (id : String)
  | byUserId (id : String)
  | stop
deriving Repr, DecidableEq

/-- Run one mutator call, keeping the post-call state whether or not the
validation guard threw. -/
def applyMutator (s : Helper) : MutatorCall → Helper
  | .byAzureADObjectId id => (impersonateUserByAzureADObjectId s id).1
  | .byUserId id => (impersonateUserByUserId s id).1
  | .stop => (stopImpersonation s).1

/-- Run a finite sequence of mutator calls. -/
def runMutators (s : Helper) (cs : List MutatorCall) : Helper :=
  cs.foldl applyMutator s

/-- The header-map shapes the class can ever hold. -/
def headerShapeOk (hm : HeaderMap) : Prop :=
  hm = [] ∨ (∃ v, hm = [("CallerObjectId", v)]) ∨ (∃ v, hm = [("MSCRMCallerID", v)])

/-- Combined state invariant: route registered iff headers non-empty, and
the header map is empty or one known singleton. -/
def Inv (s : Helper) : Prop :=
  (s.routeActive = true ↔ s.currentImpersonationHeaders ≠ []) ∧
    headerShapeOk s.currentImpersonationHeaders

/-- A tiny JS object heap, for the aliasing behaviour of
`getCurrentImpersonationHeaders`: cells hold header objects, references
are indices.  The spread `{ ...obj }` allocates a fresh object holding the
same entries as `obj`. -/
structure HeaderHeap where
  cells : List HeaderMap
deriving Repr, DecidableEq

def HeaderHeap.get (h : HeaderHeap) (r : Nat) : HeaderMap :=
  (h.cells[r]?).getD []

def HeaderHeap.set (h : HeaderHeap) (r : Nat) (v : HeaderMap) : HeaderHeap :=
  ⟨h.cells.set r v⟩

def HeaderHeap.alloc (h : HeaderHeap) (v : HeaderMap) : HeaderHeap × Nat :=
  (⟨h.cells ++ [v]⟩, h.cells.length)

/-- Heap-level `getCurrentImpersonationHeaders()`:
`return { ...this.currentImpersonationHeaders };` reads the field's object
at `self` and returns a reference to a freshly allocated copy. -/
def getCurrentImpersonationHeadersRef (h : HeaderHeap) (self : Nat) :
    HeaderHeap × Nat :=
  h.alloc (h.get self)

/-- Heap-level view of the installed route handler: it reads the header
object the helper's field points to (`self`) at interception time. -/
def injectedHeadersAt (h : HeaderHeap) (self : Nat) (routeActive : Bool)
    (orig : HeaderMap) : HeaderMap :=
  if routeActive then mergeHeaders orig (h.get self) else orig

end Impersonation

namespace Login

/-- Truncation to a 32-bit word. -/
def w32 (n : Nat) : Nat := n % 4294967296

/-- 32-bit left rotation (for inputs below `2 ^ 32`). -/
def rotl32 (x s : Nat) : Nat := (x * 2 ^ s) % 4294967296 + x / 2 ^ (32 - s)

/-- SHA-1 padding: append `0x80`, zeros up to 56 mod 64, then the 64-bit
big-endian bit length. -/
def sha1Pad (msg : List Nat) : List Nat :=
  msg ++ [128] ++ List.replicate ((119 - msg.length % 64) % 64) 0 ++
    (List.range 8).map (fun i => msg.length * 8 / 2 ^ (8 * (7 - i)) % 256)

/-- Big-endian bytes to 32-bit words. -/
def bytesToWords : List Nat → List Nat
  | a :: b :: c :: d :: rest =>
      (a * 16777216 + b * 65536 + c * 256 + d) :: bytesToWords rest
  | _ => []

/-- One 32-bit word to four big-endian bytes. -/
def wordToBytes (w : Nat) : List Nat :=
  [w / 16777216 % 256, w / 65536 % 256, w / 256 % 256, w % 256]

/-- SHA-1 round constants. -/
def sha1K (t : Nat) : Nat :=
  if t < 20 then 1518500249
  else if t < 40 then 1859775393
  else if t < 60 then 2400959708
  else 3395469782

/-- SHA-1 round functions (bitwise complement over 32 bits is xor with
`2 ^ 32 - 1`). -/
def sha1F (t b c d : Nat) : Nat :=
  if t < 20 then (b &&& c) ||| ((b ^^^ 4294967295) &&& d)
  else if t < 40 then b ^^^ c ^^^ d
  else if t < 60 then (b &&& c) ||| (b &&& d) ||| (c &&& d)
  else b ^^^ c ^^^ d

/-- SHA-1 message schedule `W[0..79]` of one 16-word block. -/
def sha1Schedule (block : List Nat) : List Nat :=
  (List.range 80).foldl
    (fun ws t =>
      if t < 16 then ws ++ [block.getD t 0]
      else ws ++ [rotl32 ((ws.getD (t - 3) 0) ^^^ (ws.getD (t - 8) 0) ^^^
        (ws.getD (t - 14) 0) ^^^ (ws.getD (t - 16) 0)) 1])
    []

/-- SHA-1 compression of one 16-word block into the 5-word chaining state. -/
def sha1Block (h : List Nat) (block : List Nat) : List Nat :=
  let ws := sha1Schedule block
  let st := (List.range 80).foldl
    (fun (st : Nat × Nat × Nat × Nat × Nat) t =>
      (w32 (rotl32 st.1 5 + sha1F t st.2.1 st.2.2.1 st.2.2.2.1 + st.2.2.2.2 +
          sha1K t + ws.getD t 0),
        st.1, rotl32 st.2.1 30, st.2.2.1, st.2.2.2.1))
    (h.getD 0 0, h.getD 1 0, h.getD 2 0, h.getD 3 0, h.getD 4 0)
  [w32 (h.getD 0 0 + st.1), w32 (h.getD 1 0 + st.2.1), w32 (h.getD 2 0 + st.2.2.1),
    w32 (h.getD 3 0 + st.2.2.2.1), w32 (h.getD 4 0 + st.2.2.2.2)]

/-- SHA-1 digest (20 bytes) of a byte list. -/
def sha1 (msg : List Nat) : List Nat :=
  let words := bytesToWords (sha1Pad msg)
  let final := (List.range (words.length / 16)).foldl
    (fun h i => sha1Block h ((words.drop (16 * i)).take 16))
    [1732584193, 4023233417, 2562383102, 271733878, 3285377520]
  (final.map wordToBytes).flatten

/-- HMAC-SHA1, block size 64 (RFC 2104), as the `otpauth` library computes
it for the HOTP digest. -/
def hmacSha1 (key msg : List Nat) : List Nat :=
  let k0 := if key.length > 64 then sha1 key else key
  let k1 := k0 ++ List.replicate (64 - k0.length) 0
  sha1 ((k1.map (fun b => b ^^^ 92)) ++ sha1 ((k1.map (fun b => b ^^^ 54)) ++ msg))

/-- RFC 4648 base32 alphabet used by the `otpauth` secret parser. -/
def base32Alphabet : List Char := "ABCDEFGHIJKLMNOPQRSTUVWXYZ234567".toList

/-- Index of a base32 character, `none` outside the alphabet. -/
def base32CharVal (c : Char) : Option Nat :=
  let i := base32Alphabet.indexOf c
  if i < 32 then some i else none

/-- Accumulate 5-bit groups into bytes, most significant bits first. -/
def base32Accum (vals : List Nat) : List Nat :=
  (vals.foldl
    (fun (st : List Nat × Nat × Nat) v =>
      let acc := st.2.1 * 32 + v
      let bits := st.2.2 + 5
      if 8 ≤ bits then (st.1 ++ [acc / 2 ^ (bits - 8)], acc % 2 ^ (bits - 8), bits - 8)
      else (st.1, acc, bits))
    ([], 0, 0)).1

/-- Parser `Secret.fromBase32` in `otpauth`: strip trailing `=`, uppercase, reject
characters outside the alphabet (the library throws a `TypeError` there,
modelled as `none`), then pack the 5-bit groups into bytes. -/
def base32Decode (s : String) : Option (List Nat) :=
  let stripped := ((s.toList.reverse.dropWhile (· == '=')).reverse).map Char.toUpper
  (stripped.mapM base32CharVal).map base32Accum

/-- The 8-byte big-endian counter buffer (`uintToBuf`). -/
def counterBytes (c : Nat) : List Nat :=
  (List.range 8).map (fun i => c / 2 ^ (8 * (7 - i)) % 256)

/-- RFC 4226 dynamic truncation of the HMAC digest to `digits` decimal
digits. -/
def hotpTruncate (digest : List Nat) (digits : Nat) : Nat :=
  let offset := digest.getD (digest.length - 1) 0 &&& 15
  ((digest.getD offset 0 &&& 127) * 16777216 + digest.getD (offset + 1) 0 * 65536 +
    digest.getD (offset + 2) 0 * 256 + digest.getD (offset + 3) 0) % 10 ^ digits

/-- Rendering `String(code).padStart(digits, "0")` for `code < 10 ^ digits`: the
`digits` decimal digits of `code`, most significant first. -/
def padStartDigits (digits code : Nat) : String :=
  String.mk (((List.range digits).reverse).map
    (fun i => Char.ofNat (48 + code / 10 ^ i % 10)))

/-- The configuration record `generateMicrosoftTOTP` passes to
`new OTPAuth.TOTP({...})`. -/
structure TOTPConfig where
  issuer : String
  label : String
  algorithm : String
  digits : Nat
  period : Nat
  secret : String
deriving Repr, DecidableEq

/-- The literal configuration built in `generateMicrosoftTOTP`. -/
def microsoftTOTPConfig (userName otpSecret : String) : TOTPConfig :=
  { issuer := "Microsoft", label := userName, algorithm := "SHA1",
    digits := 6, period := 30, secret := otpSecret }

/-- Library `TOTP.generate()` evaluated at time `timestampMs` (`Date.now()`):
base32-decode the secret (`none` models the library throwing on an
invalid secret), HMAC the `floor(timestamp / (period * 1000))` counter,
truncate and zero-pad. -/
def totpGenerate (cfg : TOTPConfig) (timestampMs : Nat) : Option String :=
  (base32Decode cfg.secret).map (fun key =>
    padStartDigits cfg.digits
      (hotpTruncate (hmacSha1 key (counterBytes (timestampMs / (cfg.period * 1000))))
        cfg.digits))

/-- Source `generateMicrosoftTOTP(userName, otpSecret)` evaluated at an explicit
current time, the ambient `Date.now()` of the JS runtime. -/
def generateMicrosoftTOTP (userName otpSecret : String) (timestampMs : Nat) :
    Option String :=
  totpGenerate (microsoftTOTPConfig userName otpSecret) timestampMs

/-- Spec-side observation used to state the 6-digit property: a generated
code, when generation succeeds, has exactly six characters. -/
def codeLengthOk : Option String → Bool
  | none => true
  | some c => c.length == 6

/-- One observable side effect `authenticate` performs on the page. -/
inductive Action where
  | goto (url : String)
  | fillEmail (value : String)
  | clickNext
  | fillPassword (value : String)
  | clickSubmit
  | clickSignInAnotherWay
  | clickPhoneAppOTP
  | fillOtp (code : String)
  | clickOtpSubmit
  | waitTimeout (ms : Nat)
  | clickStaySignedIn
deriving Repr, DecidableEq

/-- An error `authenticate` throws to its caller. -/
inductive AuthError where
  | validation (msg : String)
  | timeout (selector : String)
deriving Repr, DecidableEq

def AuthError.isValidation : AuthError → Bool
  | .validation _ => true
  | .timeout _ => false

/-- The page environment: which awaited elements become visible within
their bounded waits, the `count()` of the "stay signed in" button, and the
ambient clock.  All of this is the browser engine's side of the boundary. -/
structure PageEnv where
  emailInputVisible : Bool
  passwordInputVisible : Bool
  signInAnotherWayVisible : Bool
  phoneAppOTPVisible : Bool
  otpInputVisible : Bool
  staySignedInCount : Nat
  nowMs : Nat
deriving Repr, DecidableEq

/-- The `try { ... } catch { log }` MFA branch of `authenticate`: yields
the actions that happened up to completion or up to the swallowed
exception.  Modelled failure points, in source order: the
`a#signInAnotherWay` wait, the `div[data-value='PhoneAppOTP']` wait, TOTP
generation (invalid base32 secret throws), and the
`input#idTxtBx_SAOTCC_OTC` wait. -/
def mfaBranch (env : PageEnv) (userName otpSecret : String) : List Action :=
  if env.signInAnotherWayVisible then
    if env.phoneAppOTPVisible then
      match generateMicrosoftTOTP userName otpSecret env.nowMs with
      | none => [.clickSignInAnotherWay, .clickPhoneAppOTP]
      | some code =>
        if env.otpInputVisible then
          [.clickSignInAnotherWay, .clickPhoneAppOTP, .fillOtp code, .clickOtpSubmit]
        else
          [.clickSignInAnotherWay, .clickPhoneAppOTP]
    else
      [.clickSignInAnotherWay]
  else
    []

/-- Source `authenticate(page, userName, password, pageURL, otpSecret?)`: the
trace of page actions actually performed, and the error propagated to the
caller if any.  The JS guard `if (otpSecret)` enters the MFA branch iff
the optional argument is present and non-empty. -/
def authenticate (env : PageEnv) (userName password pageURL : String)
    (otpSecret : Option String) : List Action × Option AuthError :=
  if userName = "" ∨ jsTrim userName = "" then
    ([], some (.validation "userName is required and cannot be empty"))
  else if password = "" ∨ jsTrim password = "" then
    ([], some (.validation "password is required and cannot be empty"))
  else if pageURL = "" ∨ jsTrim pageURL = "" then
    ([], some (.validation "pageURL is required and cannot be empty"))
  else if env.emailInputVisible then
    if env.passwordInputVisible then
      let mfa :=
        match otpSecret with
        | some s => if s = "" then [] else mfaBranch env userName s
        | none => []
      let trace := [.goto pageURL, .fillEmail userName, .clickNext,
          .fillPassword password, .clickSubmit] ++ mfa ++ [.waitTimeout 1000]
      (if env.staySignedInCount > 0 then trace ++ [.clickStaySignedIn] else trace,
        none)
    else
      ([.goto pageURL, .fillEmail userName, .clickNext],
        some (.timeout "input[type=password]"))
  else
    ([.goto pageURL], some (.timeout "input[type=email]"))

end Login

namespace Impersonation

theorem setup_keeps_headers (s : Helper) :
    (setupRequestInterception s).currentImpersonationHeaders =
      s.currentImpersonationHeaders := by
  simp only [setupRequestInterception]; split <;> rfl

theorem setup_routeActive_of_nonempty (s : Helper)
    (h : s.currentImpersonationHeaders ≠ []) :
    (setupRequestInterception s).routeActive = true := by
  simp only [setupRequestInterception]
  split
  · rfl
  · next hc =>
    have hlen : s.currentImpersonationHeaders.length = 0 := by
      simp only [gt_iff_lt, not_lt] at hc; omega
    exact absurd (List.length_eq_zero.mp hlen) h

theorem setup_routeActive_of_empty (s : Helper)
    (h : s.currentImpersonationHeaders = []) :
    (setupRequestInterception s).routeActive = false := by
  simp only [setupRequestInterception]
  split
  · next hc => rw [h] at hc; simp at hc
  · rfl

theorem inv_new : Inv Helper.new := by
  constructor
  · simp [Helper.new]
  · left; rfl

theorem inv_setup (s : Helper) (h : headerShapeOk s.currentImpersonationHeaders) :
    Inv (setupRequestInterception s) := by
  rcases h with h0 | ⟨v, hv⟩ | ⟨v, hv⟩
  · refine ⟨?_, Or.inl ((setup_keeps_headers s).trans h0)⟩
    rw [setup_routeActive_of_empty s h0, setup_keeps_headers, h0]; simp
  · refine ⟨?_, Or.inr (Or.inl ⟨v, (setup_keeps_headers s).trans hv⟩)⟩
    rw [setup_routeActive_of_nonempty s (by rw [hv]; simp),
      setup_keeps_headers, hv]
    simp
  · refine ⟨?_, Or.inr (Or.inr ⟨v, (setup_keeps_headers s).trans hv⟩)⟩
    rw [setup_routeActive_of_nonempty s (by rw [hv]; simp),
      setup_keeps_headers, hv]
    simp

theorem inv_applyMutator (s : Helper) (hs : Inv s) (c : MutatorCall) :
    Inv (applyMutator s c) := by
  cases c with
  | byAzureADObjectId id =>
    show Inv (impersonateUserByAzureADObjectId s id).1
    unfold impersonateUserByAzureADObjectId
    split
    · exact hs
    · exact inv_setup
        { s with currentImpersonationHeaders := [("CallerObjectId", id)] }
        (Or.inr (Or.inl ⟨id, rfl⟩))
  | byUserId id =>
    show Inv (impersonateUserByUserId s id).1
    unfold impersonateUserByUserId
    split
    · exact hs
    · exact inv_setup
        { s with currentImpersonationHeaders := [("MSCRMCallerID", id)] }
        (Or.inr (Or.inr ⟨id, rfl⟩))
  | stop =>
    exact inv_setup { s with currentImpersonationHeaders := [] } (Or.inl rfl)

theorem inv_runMutators (cs : List MutatorCall) (s : Helper) (hs : Inv s) :
    Inv (runMutators s cs) := by
  induction cs generalizing s with
  | nil => exact hs
  | cons c cs ih => exact ih _ (inv_applyMutator s hs c)

theorem lookup_append_or (l₁ l₂ : HeaderMap) (k : String) :
    (l₁ ++ l₂).lookup k = (l₁.lookup k).or (l₂.lookup k) := by
  induction l₁ with
  | nil => simp
  | cons p t ih =>
    obtain ⟨a, b⟩ := p
    by_cases h : k = a
    · simp [List.lookup_cons, h]
    · simp [List.lookup_cons, beq_false_of_ne h, ih]

theorem lookup_filter_dropKey (t : HeaderMap) (key v k : String) :
    (t.filter (fun p => (List.lookup p.1 [(key, v)]).isNone)).lookup k =
      if k = key then none else t.lookup k := by
  induction t with
  | nil => simp
  | cons p t ih =>
    obtain ⟨a, b⟩ := p
    by_cases ha : a = key
    · subst ha
      have hdrop : List.filter (fun p => (List.lookup p.1 [(a, v)]).isNone)
          ((a, b) :: t) =
          List.filter (fun p => (List.lookup p.1 [(a, v)]).isNone) t := by
        simp [List.filter_cons]
      rw [hdrop, ih]
      by_cases hk : k = a
      · simp [hk]
      · simp [List.lookup_cons, beq_false_of_ne hk, hk]
    · have hkeep : List.filter (fun p => (List.lookup p.1 [(key, v)]).isNone)
          ((a, b) :: t) =
          (a, b) :: List.filter (fun p => (List.lookup p.1 [(key, v)]).isNone) t := by
        simp [List.filter_cons, List.lookup_cons, beq_false_of_ne ha]
      rw [hkeep]
      by_cases hk : k = a
      · subst hk
        simp [List.lookup_cons, ha]
      · simp only [List.lookup_cons, beq_false_of_ne hk]
        exact ih

/-- Lookup through a merge with a singleton impersonation map: the
impersonation key reads the impersonation value, every other key reads the
original request's value. -/
theorem lookup_mergeHeaders_singleton (orig : HeaderMap) (key v k : String) :
    (mergeHeaders orig [(key, v)]).lookup k =
      if k = key then some v else orig.lookup k := by
  rw [mergeHeaders, lookup_append_or, lookup_filter_dropKey]
  by_cases hk : k = key
  · simp [List.lookup_cons, hk]
  · simp [List.lookup_cons, beq_false_of_ne hk, hk, Option.or_none]

end Impersonation

theorem trim_guard_false {x : String} (h : jsTrim x ≠ "") :
    ¬(x = "" ∨ jsTrim x = "") := by
  rintro (rfl | h2)
  · exact h (by decide)
  · exact h h2

namespace Impersonation

/-- C1: for every id that is non-empty after trimming,
`impersonateUserByAzureADObjectId(id)` completes without error,
`getCurrentImpersonationHeaders()` then returns exactly
`{CallerObjectId: id}`, and every subsequently intercepted request
matching the `'**/api/data/**'` pattern is forwarded with its original
headers overlaid by the impersonation headers: the impersonation value
wins on the colliding key, every other original key keeps its value. -/
theorem C1_impersonation_overlay (s : Helper) (id : String)
    (orig : HeaderMap) (k : String) (h : jsTrim id ≠ "") :
    (impersonateUserByAzureADObjectId s id).2 = none ∧
      getCurrentImpersonationHeaders (impersonateUserByAzureADObjectId s id).1 =
        [("CallerObjectId", id)] ∧
      (interceptApiRequest (impersonateUserByAzureADObjectId s id).1 orig).lookup k =
        (if k = "CallerObjectId" then some id else orig.lookup k) := by
  unfold impersonateUserByAzureADObjectId
  rw [if_neg (trim_guard_false h)]
  refine ⟨rfl, setup_keeps_headers _, ?_⟩
  have hact := setup_routeActive_of_nonempty
    { s with currentImpersonationHeaders := [("CallerObjectId", id)] } (by simp)
  simp only [interceptApiRequest, hact, if_true, setup_keeps_headers]
  exact lookup_mergeHeaders_singleton orig "CallerObjectId" id k

theorem C1_impersonation_overlay_witness :
    (jsTrim "abc" ≠ "") ∧
      ((impersonateUserByAzureADObjectId Helper.new "abc").2 = none ∧
        getCurrentImpersonationHeaders
            (impersonateUserByAzureADObjectId Helper.new "abc").1 =
          [("CallerObjectId", "abc")] ∧
        (interceptApiRequest (impersonateUserByAzureADObjectId Helper.new "abc").1
              [("authorization", "Bearer t"), ("CallerObjectId", "old")]).lookup
            "CallerObjectId" =
          (if "CallerObjectId" = "CallerObjectId" then some "abc"
            else (([("authorization", "Bearer t"),
              ("CallerObjectId", "old")] : HeaderMap)).lookup "CallerObjectId")) :=
  ⟨by decide,
    C1_impersonation_overlay Helper.new "abc"
      [("authorization", "Bearer t"), ("CallerObjectId", "old")]
      "CallerObjectId" (by decide)⟩

/-- C2: after any finite sequence of the three mutator calls on a fresh
helper (each completing normally or throwing validation), the route rule
is installed iff the header map is non-empty; moreover after
`stopImpersonation()` the header map is empty, `isImpersonationActive()`
is false, and an observed outgoing request is forwarded unmodified. -/
theorem C2_route_iff_headers (cs : List MutatorCall) (orig : HeaderMap) :
    ((runMutators Helper.new cs).routeActive = true ↔
      (runMutators Helper.new cs).currentImpersonationHeaders ≠ []) ∧
    (stopImpersonation (runMutators Helper.new cs)).1.currentImpersonationHeaders
      = [] ∧
    isImpersonationActive (stopImpersonation (runMutators Helper.new cs)).1
      = false ∧
    interceptApiRequest (stopImpersonation (runMutators Helper.new cs)).1 orig
      = orig :=
  ⟨(inv_runMutators cs _ inv_new).1, rfl, rfl, rfl⟩

/-- C5: for every id that is empty or whitespace-only after trimming, both
impersonation mutators throw their validation error and return the state
unchanged: header map and route registration identical to before the call. -/
theorem C5_validation_atomic (s : Helper) (id : String) (h : jsTrim id = "") :
    impersonateUserByUserId s id =
        (s, some "systemUserId is required and cannot be empty") ∧
      impersonateUserByAzureADObjectId s id =
        (s, some "Azure AD Object ID is required and cannot be empty") := by
  constructor
  · unfold impersonateUserByUserId
    rw [if_pos (Or.inr h)]
  · unfold impersonateUserByAzureADObjectId
    rw [if_pos (Or.inr h)]

theorem C5_validation_atomic_witness :
    (jsTrim "  " = "") ∧
      (impersonateUserByUserId
          { currentImpersonationHeaders := [("CallerObjectId", "u1")],
            routeActive := true } "  " =
        ({ currentImpersonationHeaders := [("CallerObjectId", "u1")],
            routeActive := true },
          some "systemUserId is required and cannot be empty") ∧
        impersonateUserByAzureADObjectId
          { currentImpersonationHeaders := [("CallerObjectId", "u1")],
            routeActive := true } "  " =
        ({ currentImpersonationHeaders := [("CallerObjectId", "u1")],
            routeActive := true },
          some "Azure AD Object ID is required and cannot be empty")) :=
  ⟨by decide,
    C5_validation_atomic
      { currentImpersonationHeaders := [("CallerObjectId", "u1")],
        routeActive := true } "  " (by decide)⟩

/-- C6: after any finite sequence of the three mutator calls (succeeding
or failing validation) on a fresh helper, the header map holds at most
one entry, and a present key is exactly `CallerObjectId` or
`MSCRMCallerID` — never both. -/
theorem C6_header_cardinality (cs : List MutatorCall) :
    (runMutators Helper.new cs).currentImpersonationHeaders.length ≤ 1 ∧
      ((runMutators Helper.new cs).currentImpersonationHeaders = [] ∨
        (∃ v, (runMutators Helper.new cs).currentImpersonationHeaders =
          [("CallerObjectId", v)]) ∨
        (∃ v, (runMutators Helper.new cs).currentImpersonationHeaders =
          [("MSCRMCallerID", v)])) := by
  have h := (inv_runMutators cs _ inv_new).2
  refine ⟨?_, h⟩
  rcases h with h | ⟨v, h⟩ | ⟨v, h⟩ <;> simp [h]

/-- C8: `getCurrentImpersonationHeaders()` allocates and returns a fresh
object distinct from the field's object, with equal contents; the call
leaves the field's object unchanged, and overwriting the returned object
afterwards changes neither the field's object nor the headers the
installed route rule injects. -/
theorem C8_defensive_copy (h : HeaderHeap) (self : Nat) (v : HeaderMap)
    (b : Bool) (orig : HeaderMap) (hself : self < h.cells.length) :
    (getCurrentImpersonationHeadersRef h self).2 ≠ self ∧
      HeaderHeap.get (getCurrentImpersonationHeadersRef h self).1
        (getCurrentImpersonationHeadersRef h self).2 = h.get self ∧
      HeaderHeap.get (getCurrentImpersonationHeadersRef h self).1 self =
        h.get self ∧
      HeaderHeap.get
        (HeaderHeap.set (getCurrentImpersonationHeadersRef h self).1
          (getCurrentImpersonationHeadersRef h self).2 v) self = h.get self ∧
      injectedHeadersAt
        (HeaderHeap.set (getCurrentImpersonationHeadersRef h self).1
          (getCurrentImpersonationHeadersRef h self).2 v) self b orig =
        injectedHeadersAt h self b orig := by
  have hne : h.cells.length ≠ self := by omega
  have hset_self : HeaderHeap.get
      (HeaderHeap.set (getCurrentImpersonationHeadersRef h self).1
        (getCurrentImpersonationHeadersRef h self).2 v) self = h.get self := by
    simp only [getCurrentImpersonationHeadersRef, HeaderHeap.alloc,
      HeaderHeap.get, HeaderHeap.set]
    rw [List.getElem?_set_ne hne, List.getElem?_append_left hself]
  refine ⟨hne, ?_, ?_, hset_self, ?_⟩
  · simp only [getCurrentImpersonationHeadersRef, HeaderHeap.alloc,
      HeaderHeap.get]
    rw [List.getElem?_append_right (Nat.le_refl _)]
    simp
  · simp only [getCurrentImpersonationHeadersRef, HeaderHeap.alloc,
      HeaderHeap.get]
    rw [List.getElem?_append_left hself]
  · simp only [injectedHeadersAt, hset_self]

theorem C8_defensive_copy_witness :
    (0 < (HeaderHeap.mk [[("CallerObjectId", "abc")]]).cells.length) ∧
      ((getCurrentImpersonationHeadersRef
          (HeaderHeap.mk [[("CallerObjectId", "abc")]]) 0).2 ≠ 0 ∧
        HeaderHeap.get
          (getCurrentImpersonationHeadersRef
            (HeaderHeap.mk [[("CallerObjectId", "abc")]]) 0).1
          (getCurrentImpersonationHeadersRef
            (HeaderHeap.mk [[("CallerObjectId", "abc")]]) 0).2 =
          (HeaderHeap.mk [[("CallerObjectId", "abc")]]).get 0 ∧
        HeaderHeap.get
          (getCurrentImpersonationHeadersRef
            (HeaderHeap.mk [[("CallerObjectId", "abc")]]) 0).1 0 =
          (HeaderHeap.mk [[("CallerObjectId", "abc")]]).get 0 ∧
        HeaderHeap.get
          (HeaderHeap.set
            (getCurrentImpersonationHeadersRef
              (HeaderHeap.mk [[("CallerObjectId", "abc")]]) 0).1
            (getCurrentImpersonationHeadersRef
              (HeaderHeap.mk [[("CallerObjectId", "abc")]]) 0).2
            [("CallerObjectId", "evil")]) 0 =
          (HeaderHeap.mk [[("CallerObjectId", "abc")]]).get 0 ∧
        injectedHeadersAt
          (HeaderHeap.set
            (getCurrentImpersonationHeadersRef
              (HeaderHeap.mk [[("CallerObjectId", "abc")]]) 0).1
            (getCurrentImpersonationHeadersRef
              (HeaderHeap.mk [[("CallerObjectId", "abc")]]) 0).2
            [("CallerObjectId", "evil")]) 0 true [("accept", "json")] =
          injectedHeadersAt (HeaderHeap.mk [[("CallerObjectId", "abc")]]) 0 true
            [("accept", "json")]) :=
  ⟨by decide,
    C8_defensive_copy (HeaderHeap.mk [[("CallerObjectId", "abc")]]) 0
      [("CallerObjectId", "evil")] true [("accept", "json")] (by decide)⟩

/-- C9: a newly constructed helper — via the constructor,
`ImpersonationHelper.create`, or `createImpersonationHelper` — starts with
the empty header map: impersonation is inactive, the header query returns
the empty map, and the helper has registered no route yet. -/
theorem C9_fresh_helper_inactive :
    Helper.create = Helper.new ∧ createImpersonationHelper = Helper.new ∧
      isImpersonationActive Helper.new = false ∧
      getCurrentImpersonationHeaders Helper.new = [] ∧
      Helper.new.routeActive = false :=
  ⟨rfl, rfl, rfl, rfl, rfl⟩

end Impersonation

namespace Login

theorem padStartDigits_length (d n : Nat) : (padStartDigits d n).length = d := by
  simp [padStartDigits, String.length]

theorem totpGenerate_congr (cfg : TOTPConfig) (t1 t2 : Nat)
    (h : t1 / (cfg.period * 1000) = t2 / (cfg.period * 1000)) :
    totpGenerate cfg t1 = totpGenerate cfg t2 := by
  unfold totpGenerate; rw [h]

theorem codeLengthOk_totpGenerate (cfg : TOTPConfig) (h6 : cfg.digits = 6)
    (t : Nat) : codeLengthOk (totpGenerate cfg t) = true := by
  unfold totpGenerate
  cases base32Decode cfg.secret with
  | none => rfl
  | some key => simp [codeLengthOk, h6, padStartDigits_length]

/-- C3: whenever username, password, or target URL is empty or whitespace
after trimming, `authenticate` throws a validation error having performed
no page action at all — in particular no navigation (`page.goto`) and no
other UI interaction. -/
theorem C3_validation_before_navigation (env : PageEnv)
    (u p url : String) (o : Option String)
    (h : jsTrim u = "" ∨ jsTrim p = "" ∨ jsTrim url = "") :
    (authenticate env u p url o).1 = [] ∧
      Option.map AuthError.isValidation (authenticate env u p url o).2 =
        some true := by
  unfold authenticate
  rcases h with h | h | h
  · rw [if_pos (Or.inr h)]; exact ⟨rfl, rfl⟩
  · by_cases hu : u = "" ∨ jsTrim u = ""
    · rw [if_pos hu]; exact ⟨rfl, rfl⟩
    · rw [if_neg hu, if_pos (Or.inr h)]; exact ⟨rfl, rfl⟩
  · by_cases hu : u = "" ∨ jsTrim u = ""
    · rw [if_pos hu]; exact ⟨rfl, rfl⟩
    · rw [if_neg hu]
      by_cases hp : p = "" ∨ jsTrim p = ""
      · rw [if_pos hp]; exact ⟨rfl, rfl⟩
      · rw [if_neg hp, if_pos (Or.inr h)]; exact ⟨rfl, rfl⟩

theorem C3_validation_before_navigation_witness :
    (jsTrim " " = "" ∨ jsTrim "pw" = "" ∨ jsTrim "https://example.org" = "") ∧
      ((authenticate (PageEnv.mk true true false false false 0 0) " " "pw"
          "https://example.org" none).1 = [] ∧
        Option.map AuthError.isValidation
          (authenticate (PageEnv.mk true true false false false 0 0) " " "pw"
            "https://example.org" none).2 = some true) :=
  ⟨Or.inl (by decide),
    C3_validation_before_navigation (PageEnv.mk true true false false false 0 0)
      " " "pw" "https://example.org" none (Or.inl (by decide))⟩

/-- C4: with an OTP secret supplied, no failure inside the MFA sub-flow
(missing element, timeout, or TOTP code-generation error) propagates —
`authenticate` completes without error for every combination of MFA
element visibility and every (possibly invalid) secret — and the flow
always reaches the post-MFA "stay signed in" step; with no OTP secret the
MFA branch is never attempted, so the absence of the alternate sign-in
control raises nothing. -/
theorem C4_mfa_errors_swallowed (env : PageEnv) (u p url s : String)
    (hu : jsTrim u ≠ "") (hp : jsTrim p ≠ "") (hurl : jsTrim url ≠ "")
    (he : env.emailInputVisible = true) (hpwd : env.passwordInputVisible = true) :
    (authenticate env u p url (some s)).2 = none ∧
      Action.waitTimeout 1000 ∈ (authenticate env u p url (some s)).1 ∧
      (authenticate env u p url none).2 = none ∧
      Action.clickSignInAnotherWay ∉ (authenticate env u p url none).1 := by
  have g1 := trim_guard_false hu
  have g2 := trim_guard_false hp
  have g3 := trim_guard_false hurl
  refine ⟨?_, ?_, ?_, ?_⟩
  · simp [authenticate, if_neg g1, if_neg g2, if_neg g3, he, hpwd]
  · simp only [authenticate, if_neg g1, if_neg g2, if_neg g3, he, hpwd,
      eq_self_iff_true, if_true]
    by_cases hc : env.staySignedInCount > 0 <;> simp [hc, List.mem_append]
  · simp [authenticate, if_neg g1, if_neg g2, if_neg g3, he, hpwd]
  · simp only [authenticate, if_neg g1, if_neg g2, if_neg g3, he, hpwd,
      eq_self_iff_true, if_true]
    by_cases hc : env.staySignedInCount > 0 <;> simp [hc, List.mem_append]

theorem C4_mfa_errors_swallowed_witness :
    (jsTrim "user@contoso.com" ≠ "") ∧ (jsTrim "pw" ≠ "") ∧
      (jsTrim "https://example.org" ≠ "") ∧
      ((PageEnv.mk true true false false false 1 0).emailInputVisible = true) ∧
      ((PageEnv.mk true true false false false 1 0).passwordInputVisible = true) ∧
      ((authenticate (PageEnv.mk true true false false false 1 0)
          "user@contoso.com" "pw" "https://example.org"
          (some "JBSWY3DPEHPK3PXP")).2 = none ∧
        Action.waitTimeout 1000 ∈
          (authenticate (PageEnv.mk true true false false false 1 0)
            "user@contoso.com" "pw" "https://example.org"
            (some "JBSWY3DPEHPK3PXP")).1 ∧
        (authenticate (PageEnv.mk true true false false false 1 0)
          "user@contoso.com" "pw" "https://example.org" none).2 = none ∧
        Action.clickSignInAnotherWay ∉
          (authenticate (PageEnv.mk true true false false false 1 0)
            "user@contoso.com" "pw" "https://example.org" none).1) :=
  ⟨by decide, by decide, by decide, rfl, rfl,
    C4_mfa_errors_swallowed (PageEnv.mk true true false false false 1 0)
      "user@contoso.com" "pw" "https://example.org" "JBSWY3DPEHPK3PXP"
      (by decide) (by decide) (by decide) rfl rfl⟩

/-- C7: `generateMicrosoftTOTP` is deterministic — a pure function of
(userName, otpSecret) and the clock, so two calls inside the same
30-second window return the same result — every successfully generated
code has exactly 6 characters, and the configuration handed to the
library is issuer "Microsoft", label = userName, SHA-1, 6 digits,
30-second period. -/
theorem C7_totp_deterministic (u s : String) (t1 t2 : Nat)
    (h : t1 / (30 * 1000) = t2 / (30 * 1000)) :
    generateMicrosoftTOTP u s t1 = generateMicrosoftTOTP u s t2 ∧
      codeLengthOk (generateMicrosoftTOTP u s t1) = true ∧
      microsoftTOTPConfig u s =
        { issuer := "Microsoft", label := u, algorithm := "SHA1",
          digits := 6, period := 30, secret := s } := by
  exact ⟨totpGenerate_congr (microsoftTOTPConfig u s) t1 t2 h,
    codeLengthOk_totpGenerate (microsoftTOTPConfig u s) rfl t1, rfl⟩

theorem C7_totp_deterministic_witness :
    (59000 / (30 * 1000) = 59999 / (30 * 1000)) ∧
      (generateMicrosoftTOTP "user@contoso.com"
          "GEZDGNBVGY3TQOJQGEZDGNBVGY3TQOJQ" 59000 =
        generateMicrosoftTOTP "user@contoso.com"
          "GEZDGNBVGY3TQOJQGEZDGNBVGY3TQOJQ" 59999 ∧
        codeLengthOk (generateMicrosoftTOTP "user@contoso.com"
          "GEZDGNBVGY3TQOJQGEZDGNBVGY3TQOJQ" 59000) = true ∧
        microsoftTOTPConfig "user@contoso.com"
            "GEZDGNBVGY3TQOJQGEZDGNBVGY3TQOJQ" =
          { issuer := "Microsoft", label := "user@contoso.com",
            algorithm := "SHA1", digits := 6, period := 30,
            secret := "GEZDGNBVGY3TQOJQGEZDGNBVGY3TQOJQ" }) :=
  ⟨by decide,
    C7_totp_deterministic "user@contoso.com"
      "GEZDGNBVGY3TQOJQGEZDGNBVGY3TQOJQ" 59000 59999 (by decide)⟩

/-- C10: `authenticate` applies no non-emptiness validation to the OTP
secret: an empty-string secret behaves exactly like passing no secret —
the MFA branch is skipped entirely — while a whitespace-only secret
counts as present and the MFA branch is attempted: the alternate sign-in
control is clicked when visible. -/
theorem C10_otp_secret_truthiness (env : PageEnv) (u p url w : String)
    (hu : jsTrim u ≠ "") (hp : jsTrim p ≠ "") (hurl : jsTrim url ≠ "")
    (he : env.emailInputVisible = true) (hpwd : env.passwordInputVisible = true)
    (hw : w ≠ "") (h2 : jsTrim w = "")
    (hvis : env.signInAnotherWayVisible = true) :
    authenticate env u p url (some "") = authenticate env u p url none ∧
      (authenticate env u p url (some "")).2 = none ∧
      Action.clickSignInAnotherWay ∈ (authenticate env u p url (some w)).1 := by
  have g1 := trim_guard_false hu
  have g2 := trim_guard_false hp
  have g3 := trim_guard_false hurl
  refine ⟨rfl, ?_, ?_⟩
  · simp [authenticate, if_neg g1, if_neg g2, if_neg g3, he, hpwd]
  · have hmem : Action.clickSignInAnotherWay ∈ mfaBranch env u w := by
      unfold mfaBranch
      rw [if_pos hvis]
      by_cases hb : env.phoneAppOTPVisible = true
      · rw [if_pos hb]
        cases hgen : generateMicrosoftTOTP u w env.nowMs with
        | none => simp
        | some code =>
          by_cases hc : env.otpInputVisible = true <;> simp [hc]
      · rw [if_neg hb]; simp
    simp only [authenticate, if_neg g1, if_neg g2, if_neg g3, he, hpwd,
      eq_self_iff_true, if_true, if_neg hw]
    by_cases hc : env.staySignedInCount > 0 <;>
      simp [hc, List.mem_append, hmem]

theorem C10_otp_secret_truthiness_witness :
    (jsTrim "user@contoso.com" ≠ "") ∧ (jsTrim "pw" ≠ "") ∧
      (jsTrim "https://example.org" ≠ "") ∧
      ((PageEnv.mk true true true false false 0 0).emailInputVisible = true) ∧
      ((PageEnv.mk true true true false false 0 0).passwordInputVisible = true) ∧
      (" " ≠ "") ∧ (jsTrim " " = "") ∧
      ((PageEnv.mk true true true false false 0 0).signInAnotherWayVisible = true) ∧
      (authenticate (PageEnv.mk true true true false false 0 0)
          "user@contoso.com" "pw" "https://example.org" (some "") =
        authenticate (PageEnv.mk true true true false false 0 0)
          "user@contoso.com" "pw" "https://example.org" none ∧
        (authenticate (PageEnv.mk true true true false false 0 0)
          "user@contoso.com" "pw" "https://example.org" (some "")).2 = none ∧
        Action.clickSignInAnotherWay ∈
          (authenticate (PageEnv.mk true true true false false 0 0)
            "user@contoso.com" "pw" "https://example.org" (some " ")).1) :=
  ⟨by decide, by decide, by decide, rfl, rfl, by decide, by decide, rfl,
    C10_otp_secret_truthiness (PageEnv.mk true true true false false 0 0)
      "user@contoso.com" "pw" "https://example.org" " "
      (by decide) (by decide) (by decide) rfl rfl (by decide) (by decide) rfl⟩

end Login
